import Mathlib

/-!
Verification of the portfolio page script (`script.js`) against its
natural-language specification.  Each JavaScript component relevant to the
claims is shallowly embedded as a Lean definition: pure computations become
Lean functions, DOM presence becomes `Option`, a thrown JavaScript exception
becomes `Except JsError`, and timer-driven loops become explicit step
functions iterated with `Function.iterate`.
-/

/-! ## Timing constants (the `TIMING` object, script.js lines 45-52) -/

def typingSpeed : Nat := 150

def deletingSpeed : Nat := 100

def typingPause : Nat := 1200

def formStatusClear : Nat := 6000

/-! ## Typewriter effect (`initTypingEffect` / `typeWriter`, script.js lines 134-158)

The closure state is the pair `index`, `isDeleting`; the fixed string `text`
is a parameter.  One call of `typeWriter` writes `text.substring(0, index)`
into the element, then either advances `index` (typing), decrements it
(deleting), or flips `isDeleting` (pause), and always schedules the next call
with `setTimeout` after the returned delay. -/

structure TWState where
  index : Nat
  isDeleting : Bool
deriving DecidableEq, Repr

/-- The string written into the element at the start of a `typeWriter` call:
`text.substring(0, index)` (script.js line 143-144). -/
def typeWriterOut (text : List Char) (s : TWState) : List Char :=
  text.take s.index

/-- The state transition and scheduled delay of one `typeWriter` call
(script.js lines 146-155): typing advances `index` at `typingSpeed`, deleting
decrements it at `deletingSpeed`, and at the two boundaries `isDeleting` is
flipped and the next call is scheduled after `typingPause`. -/
def typeWriterStep (text : List Char) (s : TWState) : TWState × Nat :=
  if s.isDeleting = false ∧ s.index < text.length then
    (⟨s.index + 1, s.isDeleting⟩, typingSpeed)
  else if s.isDeleting = true ∧ 0 < s.index then
    (⟨s.index - 1, s.isDeleting⟩, deletingSpeed)
  else
    (⟨s.index, !s.isDeleting⟩, typingPause)

/-- The successor state of one `typeWriter` call. -/
def twNext (text : List Char) : TWState → TWState :=
  fun s => (typeWriterStep text s).1

/-- The state at the start of the `n`-th `typeWriter` call, starting from
`index = 0`, `isDeleting = false` (script.js lines 139-140). -/
def twRun (text : List Char) (n : Nat) : TWState :=
  (twNext text)^[n] ⟨0, false⟩

theorem twNext_typing (text : List Char) (k : Nat) (hk : k < text.length) :
    twNext text ⟨k, false⟩ = ⟨k + 1, false⟩ := by
  simp [twNext, typeWriterStep, hk]

theorem twNext_pause_full (text : List Char) :
    twNext text ⟨text.length, false⟩ = ⟨text.length, true⟩ := by
  simp [twNext, typeWriterStep]

theorem twNext_deleting (text : List Char) (k : Nat) (hk : 0 < k) :
    twNext text ⟨k, true⟩ = ⟨k - 1, true⟩ := by
  simp [twNext, typeWriterStep, hk]

theorem twNext_pause_empty (text : List Char) :
    twNext text ⟨0, true⟩ = ⟨0, false⟩ := by
  simp [twNext, typeWriterStep]

/-- During the typing phase the run visits exactly the states
`⟨0, false⟩, ⟨1, false⟩, …, ⟨len, false⟩`. -/
theorem twRun_typing (text : List Char) :
    ∀ k, k ≤ text.length → twRun text k = ⟨k, false⟩ := by
  intro k
  induction k with
  | zero => intro _; rfl
  | succ k ih =>
    intro h
    have hk : k < text.length := Nat.lt_of_succ_le h
    have hrun : twRun text k = ⟨k, false⟩ := ih (Nat.le_of_lt hk)
    show (twNext text)^[k + 1] ⟨0, false⟩ = _
    rw [Function.iterate_succ_apply']
    have : (twNext text)^[k] ⟨0, false⟩ = ⟨k, false⟩ := hrun
    rw [this, twNext_typing text k hk]

/-- From the full-length deleting state, `j` steps reach `⟨len - j, true⟩`. -/
theorem twIter_deleting (text : List Char) :
    ∀ j, j ≤ text.length →
      (twNext text)^[j] ⟨text.length, true⟩ = ⟨text.length - j, true⟩ := by
  intro j
  induction j with
  | zero => intro _; rfl
  | succ j ih =>
    intro h
    have hj : j < text.length := Nat.lt_of_succ_le h
    rw [Function.iterate_succ_apply', ih (Nat.le_of_lt hj),
      twNext_deleting text (text.length - j) (by omega)]
    have e : text.length - j - 1 = text.length - (j + 1) := by omega
    rw [e]

/-- One full cycle returns to the initial state. -/
theorem twRun_cycle (text : List Char) :
    twRun text (2 * text.length + 2) = ⟨0, false⟩ := by
  have e : 2 * text.length + 2 = (text.length + (text.length + 1)) + 1 := by omega
  show (twNext text)^[2 * text.length + 2] ⟨0, false⟩ = _
  rw [e, Function.iterate_succ_apply', Function.iterate_add_apply,
    Function.iterate_succ_apply']
  have h1 : (twNext text)^[text.length] ⟨0, false⟩ = ⟨text.length, false⟩ :=
    twRun_typing text text.length (Nat.le_refl _)
  rw [h1, twNext_pause_full,
    twIter_deleting text text.length (Nat.le_refl _), Nat.sub_self,
    twNext_pause_empty]

/-- Every branch of `typeWriter` schedules the next call after a positive
delay (script.js lines 148, 151, 154). -/
theorem typeWriterStep_delay_pos (text : List Char) (s : TWState) :
    0 < (typeWriterStep text s).2 := by
  unfold typeWriterStep
  split
  · norm_num [typingSpeed]
  · split
    · norm_num [deletingSpeed]
    · norm_num [typingPause]

/-- Claim C4: during one typing phase — the first `len + 1` calls of the run
started at `index = 0`, `isDeleting = false` — the strings written into the
element are exactly the ordered prefixes of the text of lengths
`0, 1, …, len`, one prefix per scheduled step. -/
theorem contents_during_typing_phase_are_prefixes (text : List Char) :
    (List.range (text.length + 1)).map (fun k => typeWriterOut text (twRun text k)) =
      (List.range (text.length + 1)).map (fun k => text.take k) := by
  apply List.map_congr_left
  intro k hk
  have hk' : k ≤ text.length := by
    have := List.mem_range.mp hk
    omega
  rw [twRun_typing text k hk']
  rfl

/-- Claim C5: the typewriter never reaches a terminal state — every call
schedules a next call after a positive delay; from the full-length typing
state it moves to the deleting phase in exactly one step, scheduled with the
pause delay; from the empty deleting state it moves back to typing in exactly
one step, scheduled with the pause delay; and the whole cycle repeats with
period `2 * len + 2`, hence forever. -/
theorem typewriter_cycles_forever (text : List Char) (n : Nat) :
    0 < (typeWriterStep text (twRun text n)).2 ∧
    typeWriterStep text ⟨text.length, false⟩ = (⟨text.length, true⟩, typingPause) ∧
    typeWriterStep text ⟨0, true⟩ = (⟨0, false⟩, typingPause) ∧
    twRun text (n + (2 * text.length + 2)) = twRun text n := by
  refine ⟨typeWriterStep_delay_pos text _, ?_, ?_, ?_⟩
  · simp [typeWriterStep]
  · simp [typeWriterStep]
  · show (twNext text)^[n + (2 * text.length + 2)] ⟨0, false⟩ = _
    rw [Function.iterate_add_apply]
    have h := twRun_cycle text
    unfold twRun at h
    rw [h]
    rfl

/-- Claim C9: every state reachable from `index = 0`, `isDeleting = false`
satisfies `index ≤ len(text)` (with `0 ≤ index` holding by the `Nat` type),
and every single step of the type/delete/pause cycle preserves the bound. -/
theorem typewriter_index_invariant (text : List Char) :
    (∀ n, (twRun text n).index ≤ text.length) ∧
    (∀ s : TWState, s.index ≤ text.length →
      ((typeWriterStep text s).1).index ≤ text.length) := by
  have hstep : ∀ s : TWState, s.index ≤ text.length →
      ((typeWriterStep text s).1).index ≤ text.length := by
    intro s hs
    unfold typeWriterStep
    split
    · next h => exact h.2
    · split
      · simp; omega
      · simpa using hs
  refine ⟨?_, hstep⟩
  intro n
  induction n with
  | zero => simp [twRun]
  | succ n ih =>
    show ((twNext text)^[n + 1] ⟨0, false⟩).index ≤ text.length
    rw [Function.iterate_succ_apply']
    exact hstep _ ih

/-- Witness for C9 at a concrete text and state. -/
theorem typewriter_index_invariant_witness :
    (⟨1, false⟩ : TWState).index ≤ ("ab".toList).length ∧
    ((typeWriterStep "ab".toList ⟨1, false⟩).1).index ≤ ("ab".toList).length :=
  ⟨by decide, (typewriter_index_invariant "ab".toList).2 ⟨1, false⟩ (by decide)⟩

/-! ## Contact form submission (`initContactForm`, script.js lines 223-260)

The submit listener disables the button, performs the fetch, and then:
on `response.ok` it shows the success message and resets the form; on a
non-ok response it awaits `response.json()` — if the parsed body has a truthy
`errors` field the per-entry messages are joined with `", "`, otherwise a
generic failure message is shown; any rejection (network failure or a body
that fails to parse as JSON) lands in `catch`, which shows the connectivity
message; `finally` re-enables the button, restores its label and schedules
the status text to be cleared after `formStatusClear` milliseconds. -/

/-- `Response.ok`: HTTP status in the 200-299 range. -/
def respOk (status : Nat) : Bool :=
  decide (200 ≤ status ∧ status ≤ 299)

/-- Result of awaiting `response.json()` on the response body: either the
parse rejects (`malformed`), or it yields a JSON object whose `errors` field
is a list of entries carrying `message` strings, or is absent/falsy
(`parsed none`). -/
inductive BodyParse where
  | malformed : BodyParse
  | parsed : Option (List String) → BodyParse
deriving DecidableEq, Repr

/-- Outcome of the `fetch` call: resolved with a status and body, or
rejected (network failure). -/
inductive FetchOutcome where
  | fetched : Nat → BodyParse → FetchOutcome
  | networkError : FetchOutcome
deriving DecidableEq, Repr

/-- Modelled from the spec: the contact form's markup (`index.html`, which is
not among the source files) supplies the submit control's original label; the
spec states that the `finally` block restores the original label, and the
script writes the fixed string `"Kirim Pesan"` there, so the original label
is modelled as that constant. -/
def originalButtonLabel : String := "Kirim Pesan"

/-- The UI state left behind by one completed run of the submit listener. -/
structure FormResult where
  statusText : String
  statusColor : String
  fieldsCleared : Bool
  buttonDisabled : Bool
  buttonLabel : String
  clearDelay : Nat
deriving DecidableEq, Repr

/-- One completed run of the submit listener (script.js lines 228-259) as a
function of the fetch outcome.  The `try/catch` part chooses the status
message, colour and whether `form.reset()` ran; the `finally` part
re-enables the button, writes the label and schedules the clearing timer. -/
def submitHandler (outcome : FetchOutcome) : FormResult :=
  let tryCatch : String × String × Bool :=
    match outcome with
    | .networkError => ("Oops! Ada masalah koneksi.", "red", false)
    | .fetched status body =>
      if respOk status then
        ("Pesan berhasil dikirim. Terima kasih!", "green", true)
      else
        match body with
        | .malformed => ("Oops! Ada masalah koneksi.", "red", false)
        | .parsed none => ("Oops! Ada masalah saat mengirim pesan.", "red", false)
        | .parsed (some msgs) => (String.intercalate ", " msgs, "red", false)
  { statusText := tryCatch.1
    statusColor := tryCatch.2.1
    fieldsCleared := tryCatch.2.2
    buttonDisabled := false
    buttonLabel := "Kirim Pesan"
    clearDelay := formStatusClear }

/-- The status text visible `dt` milliseconds after the handler finished: the
timer scheduled in `finally` overwrites it with the empty string once
`clearDelay` elapses (script.js line 257). -/
def statusAfter (r : FormResult) (dt : Nat) : String :=
  if dt < r.clearDelay then r.statusText else ""

/-- Counterexample to claim C1: the claim requires the generic failure
message both when the structured error list is absent and when the body is
malformed, but on a status-422 response with a malformed body the `json()`
rejection lands in `catch` and the connectivity message is shown — a
different string from the one shown when the parsed body lacks an errors
list. -/
theorem malformed_body_shows_connectivity_message :
    (submitHandler (.fetched 422 .malformed)).statusText = "Oops! Ada masalah koneksi." ∧
    (submitHandler (.fetched 422 (.parsed none))).statusText =
      "Oops! Ada masalah saat mengirim pesan." ∧
    (submitHandler (.fetched 422 .malformed)).statusText ≠
      (submitHandler (.fetched 422 (.parsed none))).statusText := by
  refine ⟨rfl, rfl, ?_⟩
  decide

/-- Claim C1 as amended: for every non-success response, the status text is
the error messages joined with `", "` when the parsed body carries an errors
list, the generic failure message when the body parses without one, and the
connectivity message when the body is malformed (the JSON parse rejects);
the colour always indicates failure. -/
theorem failure_path_status_text (status : Nat) (body : BodyParse)
    (h : respOk status = false) :
    (∀ msgs, body = .parsed (some msgs) →
      (submitHandler (.fetched status body)).statusText = String.intercalate ", " msgs) ∧
    (body = .parsed none →
      (submitHandler (.fetched status body)).statusText =
        "Oops! Ada masalah saat mengirim pesan.") ∧
    (body = .malformed →
      (submitHandler (.fetched status body)).statusText = "Oops! Ada masalah koneksi.") ∧
    (submitHandler (.fetched status body)).statusColor = "red" := by
  refine ⟨?_, ?_, ?_, ?_⟩
  · intro msgs hb
    subst hb
    simp [submitHandler, h]
  · intro hb
    subst hb
    simp [submitHandler, h]
  · intro hb
    subst hb
    simp [submitHandler, h]
  · cases body <;> simp [submitHandler, h]
    case parsed o => cases o <;> simp

/-- Witness for the amended C1: status 422 with body
`{"errors":[{"message":"Email required"}]}` yields exactly `"Email required"`
in the failure colour. -/
theorem failure_path_status_text_witness :
    respOk 422 = false ∧
    (submitHandler (.fetched 422 (.parsed (some ["Email required"])))).statusText =
      String.intercalate ", " ["Email required"] ∧
    (submitHandler (.fetched 422 (.parsed (some ["Email required"])))).statusColor = "red" :=
  ⟨by decide,
    (failure_path_status_text 422 (.parsed (some ["Email required"])) (by decide)).1
      ["Email required"] rfl,
    (failure_path_status_text 422 (.parsed (some ["Email required"])) (by decide)).2.2.2⟩

/-- Claim C6: on a response whose status is in the success range, the status
text becomes the fixed success message in the success colour, the form
fields are reset, and the submit control is re-enabled with its original
label — all in the same handler run, with no timer in between. -/
theorem success_path_resets_form (status : Nat) (body : BodyParse)
    (h : respOk status = true) :
    (submitHandler (.fetched status body)).statusText =
      "Pesan berhasil dikirim. Terima kasih!" ∧
    (submitHandler (.fetched status body)).statusColor = "green" ∧
    (submitHandler (.fetched status body)).fieldsCleared = true ∧
    (submitHandler (.fetched status body)).buttonDisabled = false ∧
    (submitHandler (.fetched status body)).buttonLabel = originalButtonLabel := by
  refine ⟨?_, ?_, ?_, rfl, rfl⟩ <;> simp [submitHandler, h]

/-- Witness for C6 at status 200. -/
theorem success_path_resets_form_witness :
    respOk 200 = true ∧
    ((submitHandler (.fetched 200 (.parsed none))).statusText =
      "Pesan berhasil dikirim. Terima kasih!" ∧
    (submitHandler (.fetched 200 (.parsed none))).statusColor = "green" ∧
    (submitHandler (.fetched 200 (.parsed none))).fieldsCleared = true ∧
    (submitHandler (.fetched 200 (.parsed none))).buttonDisabled = false ∧
    (submitHandler (.fetched 200 (.parsed none))).buttonLabel = originalButtonLabel) :=
  ⟨by decide, success_path_resets_form 200 (.parsed none) (by decide)⟩

/-- Claim C7: for every submission outcome — success, server-reported
failure, or network/parse exception — the `finally` block re-enables the
submit control, restores its original label, and schedules a clear of the
status message after 6000 ms, so a status message set when the handler
finishes is the empty string 6000 ms later, absent further interaction. -/
theorem finally_restores_button_and_clears_status (outcome : FetchOutcome) :
    (submitHandler outcome).buttonDisabled = false ∧
    (submitHandler outcome).buttonLabel = originalButtonLabel ∧
    (submitHandler outcome).clearDelay = 6000 ∧
    statusAfter (submitHandler outcome) 6000 = "" := by
  refine ⟨rfl, rfl, rfl, ?_⟩
  simp [statusAfter, submitHandler, formStatusClear]

/-! ## Project detail modal (`initProjectModal` / `openModal`, script.js lines 181-220) -/

/-- JavaScript `String.prototype.trim` restricted to the ASCII whitespace
characters that can occur in the data attributes involved here. -/
def isJsWhitespace (c : Char) : Bool :=
  c = ' ' ∨ c = '\t' ∨ c = '\n' ∨ c = '\r'

/-- `liveLink.trim()`: drop leading and trailing whitespace. -/
def jsTrim (s : String) : String :=
  String.mk (((s.toList.dropWhile isJsWhitespace).reverse.dropWhile
    isJsWhitespace).reverse)

/-- The dialog state produced by `openModal` (script.js lines 187-202):
title, description and source link are copied from the trigger's data
attributes; the live-demo action is shown with its href set only when the
`live` data field is present, truthy and non-empty after trimming, and the
dialog is displayed. -/
structure ModalView where
  title : String
  desc : String
  githubHref : String
  liveVisible : Bool
  liveHref : Option String
  displayed : Bool
deriving DecidableEq, Repr

/-- One run of `openModal` on a trigger's data attributes; `live = none`
models a trigger without the `live` data field. -/
def openModal (title desc github : String) (live : Option String) : ModalView :=
  let liveView : Bool × Option String :=
    match live with
    | some s => if s ≠ "" ∧ jsTrim s ≠ "" then (true, some s) else (false, none)
    | none => (false, none)
  { title := title
    desc := desc
    githubHref := github
    liveVisible := liveView.1
    liveHref := liveView.2
    displayed := true }

/-- Claim C8: opening the modal hides the live-demo action when the trigger's
live data field is absent or empty after trimming whitespace, and shows it
with its href set to the given URL when the field is non-empty after
trimming. -/
theorem modal_live_link_visibility (t d g : String) :
    ((openModal t d g none).liveVisible = false) ∧
    (∀ s, jsTrim s = "" → (openModal t d g (some s)).liveVisible = false) ∧
    (∀ s, jsTrim s ≠ "" →
      (openModal t d g (some s)).liveVisible = true ∧
      (openModal t d g (some s)).liveHref = some s) := by
  refine ⟨rfl, ?_, ?_⟩
  · intro s h
    simp [openModal, h]
  · intro s h
    have hs : s ≠ "" := by
      intro e
      apply h
      rw [e]
      rfl
    simp [openModal, hs, h]

/-- Witness for C8: a whitespace-only live field hides the action, the live
field `"https://x"` shows it and targets that URL. -/
theorem modal_live_link_visibility_witness :
    (jsTrim "   " = "" ∧ (openModal "t" "d" "g" (some "   ")).liveVisible = false) ∧
    (jsTrim "https://x" ≠ "" ∧
      (openModal "t" "d" "g" (some "https://x")).liveVisible = true ∧
      (openModal "t" "d" "g" (some "https://x")).liveHref = some "https://x") :=
  ⟨⟨by decide, (modal_live_link_visibility "t" "d" "g").2.1 "   " (by decide)⟩,
   ⟨by decide, (modal_live_link_visibility "t" "d" "g").2.2 "https://x" (by decide)⟩⟩

/-! ## Project filter (`initProjectFilter`, script.js lines 161-178)

The click handler computes, for each card,
`isVisible = filterValue === 'all' || card.dataset.category.includes(filterValue)`
and toggles the `hide` class to `!isVisible`.  `String.prototype.includes`
is substring containment, embedded below as `occursIn` over character
lists. -/

/-- `isPrefixL p s` is true when `p` is an initial segment of `s`. -/
def isPrefixL : List Char → List Char → Bool
  | [], _ => true
  | _ :: _, [] => false
  | a :: p, b :: s => a == b && isPrefixL p s

/-- `occursIn p s` is true when `p` occurs contiguously inside `s`; this is
JavaScript `s.includes(p)`. -/
def occursIn (p : List Char) : List Char → Bool
  | [] => isPrefixL p []
  | c :: rest => isPrefixL p (c :: rest) || occursIn p rest

theorem isPrefixL_iff : ∀ p s : List Char, isPrefixL p s = true ↔ ∃ r, s = p ++ r := by
  intro p
  induction p with
  | nil =>
    intro s
    simp [isPrefixL]
  | cons a p ih =>
    intro s
    cases s with
    | nil =>
      simp [isPrefixL]
    | cons b s =>
      constructor
      · intro h
        simp only [isPrefixL, Bool.and_eq_true, beq_iff_eq] at h
        obtain ⟨hab, hp⟩ := h
        obtain ⟨r, hr⟩ := (ih s).mp hp
        subst hab
        exact ⟨r, by rw [hr]; rfl⟩
      · rintro ⟨r, hr⟩
        rw [List.cons_append] at hr
        injection hr with h1 h2
        simp only [isPrefixL, Bool.and_eq_true, beq_iff_eq]
        exact ⟨h1.symm, (ih s).mpr ⟨r, h2⟩⟩

theorem occursIn_iff (p : List Char) :
    ∀ s : List Char, occursIn p s = true ↔ ∃ l r, s = l ++ p ++ r := by
  intro s
  induction s with
  | nil =>
    rw [show occursIn p [] = isPrefixL p [] from rfl, isPrefixL_iff]
    constructor
    · rintro ⟨r, hr⟩
      exact ⟨[], r, hr⟩
    · rintro ⟨l, r, hr⟩
      have h := hr.symm
      simp only [List.append_eq_nil] at h
      obtain ⟨⟨hl, hp⟩, hr2⟩ := h
      exact ⟨[], by simp [hp]⟩
  | cons c rest ih =>
    rw [show occursIn p (c :: rest) = (isPrefixL p (c :: rest) || occursIn p rest) from rfl,
      Bool.or_eq_true, isPrefixL_iff, ih]
    constructor
    · rintro (⟨r, hr⟩ | ⟨l, r, hr⟩)
      · exact ⟨[], r, by simpa using hr⟩
      · exact ⟨c :: l, r, by simp [hr]⟩
    · rintro ⟨l, r, hr⟩
      cases l with
      | nil =>
        left
        exact ⟨r, by simpa using hr⟩
      | cons x l =>
        right
        rw [List.cons_append, List.cons_append] at hr
        injection hr with h1 h2
        exact ⟨l, r, h2⟩

/-- The per-card visibility computed by the filter click handler
(script.js line 174). -/
def isVisible (filterValue category : String) : Bool :=
  filterValue == "all" || occursIn filterValue.toList category.toList

/-- The visibility rule as the spec words it: a card is visible iff the
selected filter is the sentinel `"all"` or the card's category tag set
contains the filter value. -/
def specIsVisible (filterValue : String) (tags : List String) : Bool :=
  filterValue == "all" || tags.contains filterValue

/-- Counterexample to claim C2: a card whose category string is
`"frontend"` — a single category tag — is shown for the filter value
`"front"`, although `"front"` is not the sentinel `"all"` and is not a
member of the card's tag set: `String.prototype.includes` is substring
containment, not set membership. -/
theorem substring_filter_counterexample :
    isVisible "front" "frontend" = true ∧
    ("front" == "all") = false ∧
    specIsVisible "front" ["frontend"] = false := by
  refine ⟨by decide, by decide, by decide⟩

/-- Claim C2 as amended: a card is visible iff the selected filter is the
sentinel `"all"` or the filter value occurs as a contiguous substring of the
card's category string; in particular selecting `"all"` makes every card
visible regardless of category. -/
theorem filter_visibility_substring (f c : String) :
    (isVisible "all" c = true) ∧
    (isVisible f c = true ↔ (f = "all" ∨ ∃ l r, c.toList = l ++ f.toList ++ r)) := by
  constructor
  · simp [isVisible]
  · rw [show isVisible f c = ((f == "all") || occursIn f.toList c.toList) from rfl,
      Bool.or_eq_true, beq_iff_eq, occursIn_iff]

/-! ## Graceful degradation (component guards, script.js passim)

Every initializer begins with a presence check of its root elements
(`if (!el) return`), embedded as a boolean "listener registered" result over
`Option` roots.  Elements that handlers look up at event time are passed to
the handler embeddings as `Option` values; dereferencing an absent one
models the `TypeError` that JavaScript raises on a `null` member access. -/

inductive JsError where
  | typeError : JsError
deriving DecidableEq, Repr

/-- Guard of `initPreloader` (script.js lines 75-76): true iff the listener
is registered. -/
def initPreloader (preloader : Option Unit) : Bool :=
  preloader.isSome

/-- Guard of `initThemeToggle` (script.js lines 112-113). -/
def initThemeToggle (themeToggle : Option Unit) : Bool :=
  themeToggle.isSome

/-- Guard of `initHamburgerMenu` (script.js lines 124-126). -/
def initHamburgerMenu (hamburger navLinks : Option Unit) : Bool :=
  hamburger.isSome && navLinks.isSome

/-- Guard of `initTypingEffect` (script.js lines 135-136). -/
def initTypingEffect (typingElement : Option Unit) : Bool :=
  typingElement.isSome

/-- Guard of `initProjectFilter` (script.js lines 162-163). -/
def initProjectFilter (filterContainer : Option Unit) : Bool :=
  filterContainer.isSome

/-- Guard of `initProjectModal` (script.js lines 182-185). -/
def initProjectModal (modal projectGrid closeModalBtn : Option Unit) : Bool :=
  modal.isSome && projectGrid.isSome && closeModalBtn.isSome

/-- Guard of `initContactForm` (script.js lines 224-226). -/
def initContactForm (form formStatus : Option Unit) : Bool :=
  form.isSome && formStatus.isSome

/-- Guard of `initBackToTopButton` (script.js lines 264-265). -/
def initBackToTopButton (button : Option Unit) : Bool :=
  button.isSome

/-- Guard of `initCustomCursor` (script.js lines 277-279). -/
def initCustomCursor (cursorDot cursorOutline : Option Unit) : Bool :=
  cursorDot.isSome && cursorOutline.isSome

/-- The smooth-scroll click handler (script.js lines 87-94):
`document.querySelector(this.getAttribute('href'))` may be `null` when the
anchor's target section is absent, and the unguarded `.scrollIntoView` call
on it raises a `TypeError`.  On success the returned boolean says whether
the mobile nav was closed (`navLinks?.classList.contains('active')`, which
safe-navigates). -/
def smoothScrollClick (target : Option Unit) (navLinksActive : Option Bool) :
    Except JsError Bool :=
  match target with
  | none => Except.error JsError.typeError
  | some _ => Except.ok (decide (navLinksActive = some true))

/-- The contact-form submit handler entry (script.js lines 230-231):
`form.querySelector('button[type="submit"]')` may be `null` when the form
has no submit button, and the unguarded `submitButton.disabled = true`
raises a `TypeError`; otherwise the submission runs to completion. -/
def contactSubmit (submitButton : Option Unit) (outcome : FetchOutcome) :
    Except JsError FormResult :=
  match submitButton with
  | none => Except.error JsError.typeError
  | some _ => Except.ok (submitHandler outcome)

/-- Counterexample to claim C3: event handling does not always no-op on a
missing element — a smooth-scroll click whose target section is absent
raises a `TypeError`, and a contact-form submission whose form lacks a
submit button raises a `TypeError`. -/
theorem missing_element_handler_raises :
    smoothScrollClick none (some true) = Except.error JsError.typeError ∧
    contactSubmit none (.fetched 200 (.parsed none)) = Except.error JsError.typeError :=
  ⟨rfl, rfl⟩

/-- Claim C3 as amended: every component's initializer no-op returns (never
raising) when any of its root elements is absent, but event handlers are not
fully guarded — the smooth-scroll click handler raises a `TypeError` when
the anchor's target element is absent and the contact-form submit handler
raises a `TypeError` when the submit button is absent; with those elements
present both handlers complete without raising. -/
theorem init_guards_and_handler_gaps :
    (∀ s, initContactForm none s = false) ∧
    (∀ f, initContactForm f none = false) ∧
    initPreloader none = false ∧
    initThemeToggle none = false ∧
    (∀ x, initHamburgerMenu none x = false) ∧
    (∀ x, initHamburgerMenu x none = false) ∧
    initTypingEffect none = false ∧
    initProjectFilter none = false ∧
    (∀ x y, initProjectModal none x y = false) ∧
    (∀ x y, initProjectModal x none y = false) ∧
    (∀ x y, initProjectModal x y none = false) ∧
    initBackToTopButton none = false ∧
    (∀ x, initCustomCursor none x = false) ∧
    (∀ x, initCustomCursor x none = false) ∧
    (∀ nl, smoothScrollClick none nl = Except.error JsError.typeError) ∧
    (∀ o, contactSubmit none o = Except.error JsError.typeError) ∧
    (∀ nl, smoothScrollClick (some ()) nl = Except.ok (decide (nl = some true))) ∧
    (∀ o, contactSubmit (some ()) o = Except.ok (submitHandler o)) := by
  refine ⟨fun s => rfl, fun f => ?_, rfl, rfl, fun x => rfl, fun x => ?_,
    rfl, rfl, fun x y => rfl, fun x y => ?_, fun x y => ?_, rfl, fun x => rfl,
    fun x => ?_, fun nl => rfl, fun o => rfl, fun nl => rfl, fun o => rfl⟩
  · simp [initContactForm]
  · simp [initHamburgerMenu]
  · simp [initProjectModal]
  · simp [initProjectModal]
  · simp [initCustomCursor]

/-! ## Theme toggle click (`initThemeToggle`, script.js lines 114-119)

Each click toggles the `dark-mode` class on the body, then writes the icon
and the `aria-label` from the resulting class state. -/

structure ThemeState where
  dark : Bool
  icon : String
  ariaLabel : String
deriving DecidableEq, Repr

/-- One click of the theme toggle: `classList.toggle('dark-mode')` flips the
flag, and icon and label are set from the new flag. -/
def themeToggleClick (st : ThemeState) : ThemeState :=
  let d := !st.dark
  { dark := d
    icon := if d then "🌙" else "☀️"
    ariaLabel := if d then "Switch to light mode" else "Switch to dark mode" }

/-- Claim C10: starting from a body without the dark-mode class, the class is
present after exactly the odd numbers of clicks, and after every nonempty
click sequence the icon is the moon symbol iff the class is present, with
the aria-label agreeing. -/
theorem theme_toggle_consistency (icon aria : String) (n : Nat) :
    ((themeToggleClick^[n] ⟨false, icon, aria⟩).dark = decide (n % 2 = 1)) ∧
    (1 ≤ n →
      (((themeToggleClick^[n] ⟨false, icon, aria⟩).icon = "🌙") ↔
        (themeToggleClick^[n] ⟨false, icon, aria⟩).dark = true) ∧
      (((themeToggleClick^[n] ⟨false, icon, aria⟩).ariaLabel = "Switch to light mode") ↔
        (themeToggleClick^[n] ⟨false, icon, aria⟩).dark = true)) := by
  have hflip : ∀ s : ThemeState, (themeToggleClick s).dark = !s.dark := fun s => rfl
  have hstep : ∀ s : ThemeState,
      (((themeToggleClick s).icon = "🌙") ↔ (themeToggleClick s).dark = true) ∧
      (((themeToggleClick s).ariaLabel = "Switch to light mode") ↔
        (themeToggleClick s).dark = true) := by
    intro s
    cases hd : s.dark <;> simp [themeToggleClick, hd]
  constructor
  · induction n with
    | zero => simp
    | succ n ih =>
      rw [Function.iterate_succ_apply', hflip, ih]
      by_cases h : n % 2 = 1
      · have h2 : (n + 1) % 2 = 0 := by omega
        simp [h, h2]
      · have h1 : n % 2 = 0 := by omega
        have h2 : (n + 1) % 2 = 1 := by omega
        simp [h, h2]
  · intro hn
    obtain ⟨m, rfl⟩ : ∃ m, n = m + 1 := ⟨n - 1, by omega⟩
    rw [Function.iterate_succ_apply']
    exact hstep _

/-- Witness for C10 after a single click. -/
theorem theme_toggle_consistency_witness :
    ((themeToggleClick^[1] ⟨false, "a", "b"⟩).dark = decide (1 % 2 = 1)) ∧
    ((((themeToggleClick^[1] ⟨false, "a", "b"⟩).icon = "🌙") ↔
        (themeToggleClick^[1] ⟨false, "a", "b"⟩).dark = true) ∧
      (((themeToggleClick^[1] ⟨false, "a", "b"⟩).ariaLabel = "Switch to light mode") ↔
        (themeToggleClick^[1] ⟨false, "a", "b"⟩).dark = true)) :=
  ⟨(theme_toggle_consistency "a" "b" 1).1,
    (theme_toggle_consistency "a" "b" 1).2 (by decide)⟩
